import Mathlib

/-!
Verification development for the transcribe-to-gdocs pipeline script
(`src/transcribe_to_gdocs.py`).  The Python source is shallowly embedded:
each function of the script becomes a Lean definition of the same name,
external collaborators (the `rec` recorder, the `whisper` transcriber, the
OpenAI chat-completion endpoint and the Google Docs API) become explicit
stub inputs collected in an `Env` record, and the local filesystem state
relevant to the run (the four per-run files) becomes the `FS` record
threaded through the orchestrator.  File writes and removals are modelled
as atomic and succeeding; the run timestamp is modelled by a fixed
representative string, since artifact names depend only on its format.
-/

/-- Whitespace as stripped by the Python `str.strip()` call in
`get_openai_api_key` (the ASCII whitespace characters: space, tab,
newline, carriage return, vertical tab, form feed). -/
def isPySpace (c : Char) : Bool :=
  c = ' ' || c = '\t' || c = '\n' || c = '\r' || c = Char.ofNat 11 || c = Char.ofNat 12

/-- The list-of-characters core of `str.strip()`: drop leading whitespace,
then drop trailing whitespace. -/
def stripList (l : List Char) : List Char :=
  ((l.dropWhile isPySpace).reverse.dropWhile isPySpace).reverse

/-- Embedding of the Python expression `s.strip()`. -/
def pyStrip (s : String) : String :=
  String.mk (stripList s.data)

/-- The Python exception classes that the script can raise or catch,
with the message carried by `str(e)` where `main` inspects it.
`keyboardInterrupt` is the only non-`Exception` class among them. -/
inductive PyError where
  | fileNotFound (msg : String)
  | valueError (msg : String)
  | keyboardInterrupt
  | rateLimitError
  | openAIError (msg : String)
  | calledProcessError (msg : String)
  | otherError (msg : String)
  deriving DecidableEq, Repr

/-- Message of the `FileNotFoundError` raised by `get_openai_api_key`
when the key file is absent (with the default CLI path). -/
def openaiKeyMissingMsg : String := "OpenAI API key file not found: openai_key.txt"

/-- Message of the `FileNotFoundError` raised by `get_google_creds`
when the credentials file is absent (with the default CLI path). -/
def credsMissingMsg : String := "Credentials file not found: credentials.json"

/-- Embedding of `get_openai_api_key`: `contents` is the state of the key
file (`none` = file absent).  An absent file prints the setup
instructions and raises `FileNotFoundError`; otherwise the file is read,
stripped, and an empty result raises `ValueError`. -/
def get_openai_api_key (contents : Option String) : Except PyError String :=
  match contents with
  | none => .error (.fileNotFound openaiKeyMissingMsg)
  | some s =>
    let api_key := pyStrip s
    if api_key = "" then .error (.valueError "OpenAI API key file is empty.")
    else .ok api_key

/-- Outcome of one invocation of the chat-completion collaborator, as the
`try` block of `summarize_text` observes it: a completion, a
`RateLimitError`, another `OpenAIError`, or an unexpected exception. -/
inductive LLMResult where
  | success (completion : String)
  | rateLimit
  | apiError (msg : String)
  | unexpected (msg : String)

/-- Error escaping `summarize_text`: the re-raised `RateLimitError` after
exhaustion, a re-raised `OpenAIError`, the `ValueError` raised by
`time.sleep` on a negative duration, or a re-raised unexpected
exception. -/
inductive SumErr where
  | rateLimit
  | openai (msg : String)
  | valueErr (msg : String)
  | unexpected (msg : String)
  deriving DecidableEq, Repr

/-- Observable behaviour of one call to `summarize_text`: its result, the
sequence of durations passed to `time.sleep`, and the number of
collaborator invocations performed. -/
structure SummarizeResult where
  result : Except SumErr String
  delays : List Int
  calls : Nat
  deriving Repr

/-- Embedding of `summarize_text`.  The transcript text and the API key do
not influence control flow, so the collaborator is abstracted as `stub`,
mapping the invocation index (`callIdx`, 0 at the outer call) to its
outcome.  Mirrors the source recursion: on `RateLimitError` with
`max_retries > 0` it sleeps `backoff_factor * (6 - max_retries)` and
recurses with `max_retries - 1`; with `max_retries = 0` it re-raises; any
other `OpenAIError` or unexpected exception is re-raised at once.  A
negative computed sleep duration makes `time.sleep` raise `ValueError`,
which propagates out of the handler. -/
def summarize_text (stub : Nat → LLMResult) (callIdx : Nat)
    (max_retries : Nat) (backoff_factor : Int) : SummarizeResult :=
  match stub callIdx with
  | .success s => ⟨.ok s, [], 1⟩
  | .apiError m => ⟨.error (.openai m), [], 1⟩
  | .unexpected m => ⟨.error (.unexpected m), [], 1⟩
  | .rateLimit =>
    match max_retries with
    | 0 => ⟨.error .rateLimit, [], 1⟩
    | m + 1 =>
      let wait : Int := backoff_factor * (6 - ((m : Int) + 1))
      if wait < 0 then ⟨.error (.valueErr "sleep length must be non-negative"), [], 1⟩
      else
        let rest := summarize_text stub (callIdx + 1) m backoff_factor
        ⟨rest.result, wait :: rest.delays, rest.calls + 1⟩

/-- The rate-limit stub of the testable properties: the first `n`
invocations raise `RateLimitError`, every later one returns the
completion `c`. -/
def rlStub (n : Nat) (c : String) : Nat → LLMResult :=
  fun k => if k < n then .rateLimit else .success c

/-- Substring test on character lists: Python `needle in hay`. -/
def listContains (needle : List Char) : List Char → Bool
  | [] => needle.isEmpty
  | c :: rest => needle.isPrefixOf (c :: rest) || listContains needle rest

/-- Python `needle in hay` on strings, as used by `main` to distinguish
the two quiet `FileNotFoundError` cases. -/
def strIn (needle hay : String) : Bool :=
  listContains needle.data hay.data

/-- Fixed representative of `datetime.now().strftime` for the run; every
per-run artifact name is derived from it exactly as in `main`. -/
def run_timestamp : String := "2026-10-12_12-00-00"

/-- The capture artifact name `recording_<timestamp>.wav` built in `main`. -/
def wav_filename : String := "recording_" ++ run_timestamp ++ ".wav"

/-- The transcription-engine side-output name: `whisper` writes
`<basename of the wav>.txt`, which is also the file `record_and_transcribe`
reads back and the second file `main` cleans up. -/
def whisper_txt_filename : String := "recording_" ++ run_timestamp ++ ".txt"

/-- Message of the `FileNotFoundError` raised by `record_and_transcribe`
when the expected whisper output file is absent. -/
def missingTranscriptionMsg : String :=
  "Could not find transcription file: " ++ whisper_txt_filename

/-- Message of the `FileNotFoundError` raised by `subprocess.run` when the
`rec` binary is not installed. -/
def recMissingMsg : String := "No such file or directory: rec"

/-- Local filesystem state of one run: the four files whose lifetime the
orchestrator manages.  `wav` is existence of `recording_<ts>.wav`;
`recTxt`, `transcript` and `summaryF` are the contents (when the file
exists) of `recording_<ts>.txt`, `transcription_<ts>.txt` and
`summary_<ts>.txt`. -/
structure FS where
  wav : Bool
  recTxt : Option String
  transcript : Option String
  summaryF : Option String
  deriving Repr

/-- Filesystem at process start: none of the per-run files exist. -/
def FS.init : FS := ⟨false, none, none, none⟩

/-- How the `rec` subprocess call ends: normal exit, `KeyboardInterrupt`
(the user stopping the recording), missing binary
(`FileNotFoundError`), or nonzero exit (`CalledProcessError`). -/
inductive RecOutcome where
  | ok
  | interrupt
  | binMissing
  | procError (msg : String)

/-- How the `whisper` subprocess call ends: normal exit, nonzero exit
(`CalledProcessError`), or a user interrupt, which no handler inside
`record_and_transcribe` catches. -/
inductive WhisperOutcome where
  | ok
  | interrupt
  | procError (msg : String)

/-- A Google Docs API call either succeeds, fails with an `HttpError`
(collaborator-signalled, caught inside `create_doc`), or raises some
other exception. -/
inductive DocsErr where
  | http (msg : String)
  | other (msg : String)

/-- Behaviour of all external collaborators and external state during one
run: the outcomes of the two subprocesses, whether `rec` left a wav file
behind, the whisper side-output file contents, the OpenAI key file
contents (`none` = absent), the chat-completion stub indexed by
invocation number, the Google credentials file presence, the OAuth flow
outcome (`Except.error` = an unexpected exception in the flow), and the
outcomes of the two Docs API calls. -/
structure Env where
  recOutcome : RecOutcome
  wavWritten : Bool
  whisperOutcome : WhisperOutcome
  whisperSideTxt : Option String
  keyFile : Option String
  llmStub : Nat → LLMResult
  credsFileExists : Bool
  googleAuth : Except String Unit
  docsCreate : Except DocsErr String
  docsUpdate : Except DocsErr Unit

/-- Embedding of `record_and_transcribe`: runs `rec` (a user interrupt is
caught and treated as a completed recording; a missing binary or nonzero
exit re-raises), then runs `whisper` (nonzero exit re-raises; an
interrupt propagates), then reads the whisper output file by naming
convention, raising `FileNotFoundError` when it is absent.  The returned
`FS` records which capture-side files exist afterwards; this function
never touches the transcript or summary files. -/
def record_and_transcribe (env : Env) (fs : FS) : FS × Except PyError String :=
  match env.recOutcome with
  | .binMissing => (fs, .error (.fileNotFound recMissingMsg))
  | .procError m => ({ fs with wav := env.wavWritten }, .error (.calledProcessError m))
  | .ok | .interrupt =>
    let fs1 := { fs with wav := env.wavWritten }
    let fs2 := { fs1 with recTxt := env.whisperSideTxt }
    match env.whisperOutcome with
    | .procError m => (fs2, .error (.calledProcessError m))
    | .interrupt => (fs2, .error .keyboardInterrupt)
    | .ok =>
      match fs2.recTxt with
      | some t => (fs2, .ok t)
      | none => (fs2, .error (.fileNotFound missingTranscriptionMsg))

/-- Embedding of `get_google_creds`: an absent credentials file prints the
setup instructions and raises `FileNotFoundError`; otherwise the cached
token is loaded or the interactive flow runs, whose unexpected failure
propagates. -/
def get_google_creds (env : Env) : Except PyError Unit :=
  if env.credsFileExists then
    match env.googleAuth with
    | .ok _ => .ok ()
    | .error m => .error (.otherError m)
  else .error (.fileNotFound credsMissingMsg)

/-- Observable behaviour of `create_doc`: the value returned (or the
exception propagated), and how many remote Docs API calls were made. -/
structure CreateDocResult where
  url : Except PyError (Option String)
  remoteCalls : Nat

/-- Embedding of `create_doc`: calls `documents().create`, then
`documents().batchUpdate` inserting the content at index 1, and returns
the document URL; an `HttpError` from either call is caught, reported,
and turned into a `None` return, while any other exception propagates. -/
def create_doc (env : Env) : CreateDocResult :=
  match env.docsCreate with
  | .error (.http _) => ⟨.ok none, 1⟩
  | .error (.other m) => ⟨.error (.otherError m), 1⟩
  | .ok doc_id =>
    match env.docsUpdate with
    | .error (.http _) => ⟨.ok none, 2⟩
    | .error (.other m) => ⟨.error (.otherError m), 2⟩
    | .ok _ => ⟨.ok (some ("https://docs.google.com/document/d/" ++ doc_id ++ "/edit")), 2⟩

/-- Embedding of `cleanup_files` as invoked from the `finally` block of
`main`: removes `recording_<ts>.wav` and `recording_<ts>.txt` when they
exist (removal modelled as succeeding) and touches no other file. -/
def cleanup_files (fs : FS) : FS :=
  { fs with wav := false, recTxt := none }

/-- How the exception class of an error escaping the `try` block of
`summarize_text` maps onto the handler chain of `main`. -/
def sumErrToPy : SumErr → PyError
  | .rateLimit => .rateLimitError
  | .openai m => .openAIError m
  | .valueErr m => .valueError m
  | .unexpected m => .otherError m

/-- Terminal outcome of `main`, one constructor per way the function can
return: the success path, the two quiet returns from the
`FileNotFoundError` handler, the other handled reports, and the
catch-all handler that prints the message together with a full
traceback. -/
inductive Outcome where
  | success (doc_url : Option String)
  | quietCredsReturn
  | quietKeyReturn
  | errorPrinted (msg : String)
  | interrupted
  | rateLimitReported
  | openAIErrorReported (msg : String)
  | genericWithTrace (msg : String)
  deriving DecidableEq, Repr

/-- The exception-handler chain of `main`, in source order:
`FileNotFoundError` (with the two substring-distinguished quiet cases),
`KeyboardInterrupt`, `RateLimitError`, `OpenAIError`, then the catch-all
`Exception` handler that also prints the traceback. -/
def dispatch : PyError → Outcome
  | .fileNotFound m =>
    if strIn "Credentials file not found" m then .quietCredsReturn
    else if strIn "OpenAI API key file not found" m then .quietKeyReturn
    else .errorPrinted m
  | .keyboardInterrupt => .interrupted
  | .rateLimitError => .rateLimitReported
  | .openAIError m => .openAIErrorReported m
  | .valueError m => .genericWithTrace m
  | .calledProcessError m => .genericWithTrace m
  | .otherError m => .genericWithTrace m

/-- The `try` block of `main`: record and transcribe; write the transcript
backup; read the OpenAI key; summarize (with the default
`max_retries=5`, `backoff_factor=2`); write the summary backup; get the
Google credentials; create the document.  Returns the filesystem state
and either the `doc_url` value or the first exception raised. -/
def mainTry (env : Env) (fs : FS) : FS × Except PyError (Option String) :=
  match record_and_transcribe env fs with
  | (fs1, .error e) => (fs1, .error e)
  | (fs1, .ok transcription) =>
    let fs2 := { fs1 with transcript := some transcription }
    match get_openai_api_key env.keyFile with
    | .error e => (fs2, .error e)
    | .ok _api_key =>
      match (summarize_text env.llmStub 0 5 2).result with
      | .error e => (fs2, .error (sumErrToPy e))
      | .ok summary =>
        let fs3 := { fs2 with summaryF := some summary }
        match get_google_creds env with
        | .error e => (fs3, .error e)
        | .ok _ =>
          match (create_doc env).url with
          | .error e => (fs3, .error e)
          | .ok doc_url => (fs3, .ok doc_url)

namespace Script

/-- Embedding of `main`: the `try` block, the handler chain turning any
raised exception into a printed report, and the `finally` block that
cleans up the capture files on every path. -/
def main (env : Env) : FS × Outcome :=
  let r := mainTry env FS.init
  let out := match r.2 with
    | .ok doc_url => Outcome.success doc_url
    | .error e => dispatch e
  (cleanup_files r.1, out)

end Script

/-- The script installs no `sys.exit` call and `main` returns normally on
every path, so the interpreter exits with status 0 whatever the
outcome. -/
def exit_code : Outcome → Nat := fun _ => 0

/-- A fully successful environment: recording and transcription succeed
with transcript text "hello", the key file holds a key, the first
summarization call succeeds, and both Docs calls succeed. -/
def envC3w : Env :=
  ⟨.ok, true, .ok, some "hello", some " sk-key ", fun _ => .success "summary text",
    true, .ok (), .ok "docid", .ok ()⟩

/-- Environment in which the `rec` binary is missing, so the very first
stage raises `FileNotFoundError`. -/
def envC6w : Env :=
  ⟨.binMissing, false, .ok, none, none, fun _ => .rateLimit, false, .ok (),
    .ok "docid", .ok ()⟩

/-- A fully successful environment for exercising the transcript
persistence path. -/
def envC7w : Env :=
  ⟨.ok, true, .ok, some "hello", some "key", fun _ => .success "summary text",
    true, .ok (), .ok "docid", .ok ()⟩

/-- Environment in which everything succeeds up to publication and the
`documents().create` call fails with an `HttpError`. -/
def envC8w : Env :=
  ⟨.ok, true, .ok, some "hello", some "key", fun _ => .success "summary text",
    true, .ok (), .error (.http "HttpError 500"), .ok ()⟩

/-- Environment in which transcription succeeds and the OpenAI key file is
absent. -/
def envC9w : Env :=
  ⟨.ok, true, .ok, some "hello", none, fun _ => .success "summary text",
    true, .ok (), .ok "docid", .ok ()⟩

/-- Environment in which transcription succeeds and the OpenAI key file
exists but is empty. -/
def envC9c : Env :=
  ⟨.ok, true, .ok, some "hello", some "", fun _ => .success "summary text",
    true, .ok (), .ok "docid", .ok ()⟩

/-! Helper lemmas about the retry recursion of `summarize_text` applied to
the rate-limit stub, about `str.strip()`, and about the orchestrator. -/

lemma summarize_rlStub_result (n : Nat) (c : String) (b : Int) (hb : 0 ≤ b) :
    ∀ M : Nat, M ≤ 6 → ∀ idx : Nat,
      (summarize_text (rlStub n c) idx M b).result =
        if n ≤ idx + M then Except.ok c else Except.error SumErr.rateLimit := by
  intro M
  induction M with
  | zero =>
    intro _ idx
    by_cases h : idx < n
    · have hn : ¬ n ≤ idx := by omega
      simp [summarize_text, rlStub, h, hn]
    · have hn : n ≤ idx := by omega
      simp [summarize_text, rlStub, h, hn]
  | succ m ih =>
    intro hM idx
    by_cases h : idx < n
    · have hw : ¬ (b * (6 - ((m : Int) + 1)) < 0) := by
        have h6 : (0 : Int) ≤ 6 - ((m : Int) + 1) := by
          have : (m : Int) ≤ 5 := by exact_mod_cast Nat.le_of_lt_succ (Nat.lt_of_succ_le hM)
          omega
        exact not_lt.mpr (mul_nonneg hb h6)
      have harith : idx + 1 + m = idx + (m + 1) := by omega
      simp only [summarize_text, rlStub, if_pos h, if_neg hw]
      rw [ih (by omega) (idx + 1), harith]
    · have hn : n ≤ idx + (m + 1) := by omega
      simp [summarize_text, rlStub, h, hn]

lemma summarize_rlStub_delays (n : Nat) (c : String) (b : Int) (hb : 0 ≤ b) :
    ∀ M : Nat, M ≤ 6 → ∀ idx : Nat,
      (summarize_text (rlStub n c) idx M b).delays =
        (List.range (min (n - idx) M)).map (fun (j : Nat) => b * (6 - (M : Int) + (j : Int))) := by
  intro M
  induction M with
  | zero =>
    intro _ idx
    by_cases h : idx < n
    · simp [summarize_text, rlStub, h]
    · simp [summarize_text, rlStub, h]
  | succ m ih =>
    intro hM idx
    by_cases h : idx < n
    · have hw : ¬ (b * (6 - ((m : Int) + 1)) < 0) := by
        have h6 : (0 : Int) ≤ 6 - ((m : Int) + 1) := by
          have : (m : Int) ≤ 5 := by exact_mod_cast Nat.le_of_lt_succ (Nat.lt_of_succ_le hM)
          omega
        exact not_lt.mpr (mul_nonneg hb h6)
      have hmin : min (n - idx) (m + 1) = min (n - (idx + 1)) m + 1 := by omega
      simp only [summarize_text, rlStub, if_pos h, if_neg hw]
      rw [ih (by omega) (idx + 1), hmin, List.range_succ_eq_map, List.map_cons, List.map_map]
      congr 1
      · push_cast
        ring
      · apply List.map_congr_left
        intro j hj
        simp only [Function.comp_apply]
        push_cast
        ring
    · have h0 : n - idx = 0 := by omega
      simp [summarize_text, rlStub, h, h0]

lemma dropWhile_head_false (p : Char → Bool) :
    ∀ (l : List Char) (c : Char) (t : List Char), l.dropWhile p = c :: t → p c = false := by
  intro l
  induction l with
  | nil => intro c t h; simp at h
  | cons a l ih =>
    intro c t h
    cases hpa : p a with
    | true =>
      rw [List.dropWhile_cons_of_pos (by simp [hpa])] at h
      exact ih c t h
    | false =>
      rw [List.dropWhile_cons_of_neg (by simp [hpa])] at h
      cases h
      exact hpa

lemma dropWhile_getLast_same (p : Char → Bool) :
    ∀ l : List Char, l.dropWhile p ≠ [] → (l.dropWhile p).getLast? = l.getLast? := by
  intro l
  induction l with
  | nil => intro h; simp at h
  | cons a l ih =>
    intro h
    cases hpa : p a with
    | false => rw [List.dropWhile_cons_of_neg (by simp [hpa])]
    | true =>
      rw [List.dropWhile_cons_of_pos (by simp [hpa])] at h ⊢
      have hl : l ≠ [] := by
        intro hnil
        rw [hnil] at h
        simp at h
      obtain ⟨b, t, rfl⟩ := List.exists_cons_of_ne_nil hl
      rw [ih h, List.getLast?_cons_cons]

lemma stripList_head_not_space (l : List Char) (c : Char)
    (h : (stripList l).head? = some c) : isPySpace c = false := by
  unfold stripList at h
  rw [List.head?_reverse] at h
  have hne : ((l.dropWhile isPySpace).reverse.dropWhile isPySpace) ≠ [] := by
    intro hnil
    rw [hnil] at h
    simp at h
  rw [dropWhile_getLast_same isPySpace _ hne, List.getLast?_reverse] at h
  rcases hd : l.dropWhile isPySpace with _ | ⟨c2, t⟩
  · rw [hd] at h; simp at h
  · rw [hd] at h
    simp only [List.head?_cons, Option.some.injEq] at h
    subst h
    exact dropWhile_head_false isPySpace l c2 t hd

lemma stripList_getLast_not_space (l : List Char) (c : Char)
    (h : (stripList l).getLast? = some c) : isPySpace c = false := by
  unfold stripList at h
  rw [List.getLast?_reverse] at h
  rcases hd : (l.dropWhile isPySpace).reverse.dropWhile isPySpace with _ | ⟨c2, t⟩
  · rw [hd] at h; simp at h
  · rw [hd] at h
    simp only [List.head?_cons, Option.some.injEq] at h
    subst h
    exact dropWhile_head_false isPySpace _ c2 t hd

lemma stripList_all_space (l : List Char) (h : ∀ c ∈ l, isPySpace c = true) :
    stripList l = [] := by
  unfold stripList
  have h1 : l.dropWhile isPySpace = [] := List.dropWhile_eq_nil_iff.mpr (by
    intro x hx
    simp [h x hx])
  rw [h1]
  simp

lemma rt_preserves (env : Env) (fs : FS) :
    (record_and_transcribe env fs).1.transcript = fs.transcript ∧
    (record_and_transcribe env fs).1.summaryF = fs.summaryF := by
  cases h1 : env.recOutcome <;>
    cases h2 : env.whisperOutcome <;>
      cases h3 : env.whisperSideTxt <;>
        simp [record_and_transcribe, h1, h2, h3]

lemma rt_init_files (env : Env) (fs1 : FS) (r : Except PyError String)
    (h : record_and_transcribe env FS.init = (fs1, r)) :
    fs1.transcript = none ∧ fs1.summaryF = none := by
  have hp := rt_preserves env FS.init
  rw [h] at hp
  simpa [FS.init] using hp

lemma mainTry_transcript_of_ok (env : Env) (fs1 : FS) (t : String)
    (hrt : record_and_transcribe env FS.init = (fs1, Except.ok t)) :
    (mainTry env FS.init).1.transcript = some t := by
  unfold mainTry
  rw [hrt]
  cases hk : get_openai_api_key env.keyFile with
  | error e => simp
  | ok k =>
    cases hs : (summarize_text env.llmStub 0 5 2).result with
    | error e => simp
    | ok s =>
      cases hg : get_google_creds env with
      | error e => simp
      | ok u =>
        cases hd : (create_doc env).url with
        | error e => simp
        | ok du => simp

/-- C1 counterexample.  The claim says the stage succeeds iff
`N < max_attempts`, but with `N = 5` initial rate-limit failures and
`max_attempts = 5` (the default, `backoff_base = 2`) the code still
succeeds on the sixth invocation: the recursion retries while
`max_retries > 0`, allowing `max_attempts + 1` total invocations. -/
theorem summarize_boundary_counterexample :
    (summarize_text (rlStub 5 "done") 0 5 2).result = Except.ok "done" ∧ ¬ (5 < 5) := by
  exact ⟨rfl, by decide⟩

/-- C1 (amended).  For a collaborator stub that raises a rate-limit error
on its first `n` invocations and succeeds afterwards,
`summarize_text` succeeds — returning the stub completion — iff
`n ≤ max_attempts` (the code performs up to `max_attempts + 1` total
invocations), and when the attempts are exhausted (`max_attempts < n`)
the rate-limit error is re-raised as the surfaced failure.  Stated for
`0 ≤ backoff_base` and `max_attempts ≤ 6`, the range in which every
computed sleep duration is non-negative. -/
theorem summarize_retry_iff (n M : Nat) (b : Int) (c : String)
    (hb : 0 ≤ b) (hM : M ≤ 6) :
    ((summarize_text (rlStub n c) 0 M b).result = Except.ok c ↔ n ≤ M)
    ∧ (M < n →
      (summarize_text (rlStub n c) 0 M b).result = Except.error SumErr.rateLimit) := by
  have h := summarize_rlStub_result n c b hb M hM 0
  rw [Nat.zero_add] at h
  constructor
  · constructor
    · intro hok
      by_contra hn
      rw [h, if_neg hn] at hok
      exact Except.noConfusion hok
    · intro hnM
      rw [h, if_pos hnM]
  · intro hMn
    rw [h, if_neg (by omega)]

/-- C1 witness: the amended theorem applied at `n = 3`, `max_attempts = 5`,
`backoff_base = 2`. -/
theorem summarize_retry_iff_witness :
    ((summarize_text (rlStub 3 "s") 0 5 2).result = Except.ok "s" ↔ 3 ≤ 5)
    ∧ (5 < 3 →
      (summarize_text (rlStub 3 "s") 0 5 2).result = Except.error SumErr.rateLimit) :=
  summarize_retry_iff 3 5 2 "s" (by decide) (by decide)

/-- C2 counterexample.  The claim says the k-th retry always waits
`backoff_base * k`; but with `max_attempts = 1` and `backoff_base = 2`
the single retry waits `2 * (6 - 1) = 10`, not `2 * 1`: the source
formula `backoff_factor * (6 - max_retries)` hardcodes the constant 6
tied to the default `max_retries = 5`. -/
theorem summarize_backoff_counterexample :
    (summarize_text (rlStub 1 "s") 0 1 2).delays = [(10 : Int)]
    ∧ ((10 : Int) ≠ 2 * 1) := by
  exact ⟨rfl, by decide⟩

/-- C2 (amended).  The delay before the k-th retry (k = j + 1 in 0-indexed
form) is `backoff_base * (k + 5 - max_attempts)`; with the default
`max_attempts = 5` — the only value `main` uses — this is exactly the
claimed linear schedule `backoff_base * k` with no jitter.  Stated for
`0 ≤ backoff_base` and `max_attempts ≤ 6`, where every sleep is
non-negative. -/
theorem summarize_backoff_schedule (n M : Nat) (b : Int) (c : String)
    (hb : 0 ≤ b) (hM : M ≤ 6) :
    (summarize_text (rlStub n c) 0 M b).delays =
      (List.range (min n M)).map (fun (j : Nat) => b * (6 - (M : Int) + (j : Int)))
    ∧ (summarize_text (rlStub n c) 0 5 b).delays =
      (List.range (min n 5)).map (fun (j : Nat) => b * ((j : Int) + 1)) := by
  constructor
  · have h := summarize_rlStub_delays n c b hb M hM 0
    simpa using h
  · have h := summarize_rlStub_delays n c b hb 5 (by omega) 0
    simp only [Nat.sub_zero] at h
    rw [h]
    apply List.map_congr_left
    intro j hj
    push_cast
    ring

/-- C2 witness: the amended theorem at the spec example — four rate-limit
failures, then success, at the defaults — whose delay list evaluates to
`[2, 4, 6, 8]`. -/
theorem summarize_backoff_schedule_witness :
    ((summarize_text (rlStub 4 "s") 0 5 2).delays =
      (List.range (min 4 5)).map (fun (j : Nat) => (2 : Int) * (6 - (5 : Int) + (j : Int)))
    ∧ (summarize_text (rlStub 4 "s") 0 5 2).delays =
      (List.range (min 4 5)).map (fun (j : Nat) => (2 : Int) * ((j : Int) + 1))) :=
  summarize_backoff_schedule 4 5 2 "s" (by decide) (by decide)

/-- C5.  A collaborator stub whose first invocation raises a non-rate-limit
`OpenAIError` (auth, malformed request, server error) — or any other
unexpected exception — causes exactly one invocation, an empty sleep
sequence, and immediate propagation of that error out of
`summarize_text`, for every `max_attempts` and `backoff_base`. -/
theorem summarize_no_retry_on_fatal_error (stub : Nat → LLMResult) (M : Nat) (b : Int)
    (m : String) :
    (stub 0 = LLMResult.apiError m →
      summarize_text stub 0 M b =
        ⟨Except.error (SumErr.openai m), [], 1⟩)
    ∧ (stub 0 = LLMResult.unexpected m →
      summarize_text stub 0 M b =
        ⟨Except.error (SumErr.unexpected m), [], 1⟩) := by
  constructor <;> intro h <;> cases M <;> simp [summarize_text, h]

/-- C5 witness: a stub failing with an auth error at once, at the default
parameters. -/
theorem summarize_no_retry_witness :
    summarize_text (fun _ => LLMResult.apiError "auth error") 0 5 2 =
      ⟨Except.error (SumErr.openai "auth error"), [], 1⟩ :=
  (summarize_no_retry_on_fatal_error (fun _ => LLMResult.apiError "auth error") 5 2
    "auth error").1 rfl

/-- C3.  End-of-run durable-artifact invariant: for every environment,
after `main` either both the transcript and summary files exist, or the
transcript alone exists, or neither exists (never a summary without a
transcript); whenever transcription completed with text `t` the
transcript file holds `t` after the run; and the final cleanup never
deletes the transcript or summary file (their state after `main` equals
their state at the end of the `try` block). -/
theorem end_of_run_artifacts (env : Env) :
    (((Script.main env).1.transcript.isSome ∧ (Script.main env).1.summaryF.isSome)
      ∨ ((Script.main env).1.transcript.isSome ∧ (Script.main env).1.summaryF = none)
      ∨ ((Script.main env).1.transcript = none ∧ (Script.main env).1.summaryF = none))
    ∧ (∀ t, (record_and_transcribe env FS.init).2 = Except.ok t →
        (Script.main env).1.transcript = some t)
    ∧ (Script.main env).1.transcript = (mainTry env FS.init).1.transcript
    ∧ (Script.main env).1.summaryF = (mainTry env FS.init).1.summaryF := by
  have hT : (Script.main env).1.transcript = (mainTry env FS.init).1.transcript := by
    simp [Script.main, cleanup_files]
  have hS : (Script.main env).1.summaryF = (mainTry env FS.init).1.summaryF := by
    simp [Script.main, cleanup_files]
  rcases hrt : record_and_transcribe env FS.init with ⟨fs1, r1⟩
  obtain ⟨h1, h2⟩ := rt_init_files env fs1 r1 hrt
  cases r1 with
  | error e =>
    have hmt : mainTry env FS.init = (fs1, Except.error e) := by
      unfold mainTry
      rw [hrt]
    refine ⟨Or.inr (Or.inr ⟨?_, ?_⟩), ?_, hT, hS⟩
    · rw [hT, hmt]
      exact h1
    · rw [hS, hmt]
      exact h2
    · intro t ht
      simp at ht
  | ok t =>
    cases hk : get_openai_api_key env.keyFile with
    | error e =>
      have hmt : mainTry env FS.init = ({ fs1 with transcript := some t }, Except.error e) := by
        unfold mainTry
        rw [hrt, hk]
      refine ⟨Or.inr (Or.inl ⟨?_, ?_⟩), ?_, hT, hS⟩
      · rw [hT, hmt]
        simp
      · rw [hS, hmt]
        simpa using h2
      · intro t0 ht
        rw [hT, hmt]
        simp at ht
        simp [ht]
    | ok k =>
      cases hs : (summarize_text env.llmStub 0 5 2).result with
      | error e =>
        have hmt : mainTry env FS.init =
            ({ fs1 with transcript := some t }, Except.error (sumErrToPy e)) := by
          unfold mainTry
          rw [hrt, hk, hs]
        refine ⟨Or.inr (Or.inl ⟨?_, ?_⟩), ?_, hT, hS⟩
        · rw [hT, hmt]
          simp
        · rw [hS, hmt]
          simpa using h2
        · intro t0 ht
          rw [hT, hmt]
          simp at ht
          simp [ht]
      | ok s =>
        cases hg : get_google_creds env with
        | error e =>
          have hmt : mainTry env FS.init =
              ({ fs1 with transcript := some t, summaryF := some s }, Except.error e) := by
            unfold mainTry
            rw [hrt, hk, hs, hg]
          refine ⟨Or.inl ⟨?_, ?_⟩, ?_, hT, hS⟩
          · rw [hT, hmt]
            simp
          · rw [hS, hmt]
            simp
          · intro t0 ht
            rw [hT, hmt]
            simp at ht
            simp [ht]
        | ok u =>
          cases hd : (create_doc env).url with
          | error e =>
            have hmt : mainTry env FS.init =
                ({ fs1 with transcript := some t, summaryF := some s }, Except.error e) := by
              unfold mainTry
              rw [hrt, hk, hs, hg, hd]
            refine ⟨Or.inl ⟨?_, ?_⟩, ?_, hT, hS⟩
            · rw [hT, hmt]
              simp
            · rw [hS, hmt]
              simp
            · intro t0 ht
              rw [hT, hmt]
              simp at ht
              simp [ht]
          | ok du =>
            have hmt : mainTry env FS.init =
                ({ fs1 with transcript := some t, summaryF := some s }, Except.ok du) := by
              unfold mainTry
              rw [hrt, hk, hs, hg, hd]
            refine ⟨Or.inl ⟨?_, ?_⟩, ?_, hT, hS⟩
            · rw [hT, hmt]
              simp
            · rw [hS, hmt]
              simp
            · intro t0 ht
              rw [hT, hmt]
              simp at ht
              simp [ht]

/-- C3 witness: in the fully successful environment the transcript file
holds the transcription after the run. -/
theorem end_of_run_artifacts_witness :
    (Script.main envC3w).1.transcript = some "hello" :=
  (end_of_run_artifacts envC3w).2.1 "hello" rfl

/-- C4.  Capture-artifact cleanup: for every environment — hence on every
exit path of the run: normal completion, handled failure at any stage,
or user interruption — neither the capture audio file
`recording_<ts>.wav` nor the whisper side-output `recording_<ts>.txt`
exists after `main` returns; the `finally`-scoped `cleanup_files` runs
on every path. -/
theorem capture_cleanup (env : Env) :
    (Script.main env).1.wav = false ∧ (Script.main env).1.recTxt = none := by
  constructor
  · simp [Script.main, cleanup_files]
  · simp [Script.main, cleanup_files]

/-- C6.  The orchestrator never raises past its own boundary: every
exception produced inside the `try` block of `main` is mapped through
the handler chain `dispatch` into a terminal report, cleanup still runs
(the capture files are gone), and the process exit status is 0. -/
theorem orchestrator_catches_all (env : Env) :
    (∀ e : PyError, (mainTry env FS.init).2 = Except.error e →
        (Script.main env).2 = dispatch e)
    ∧ (Script.main env).1.wav = false
    ∧ (Script.main env).1.recTxt = none
    ∧ exit_code (Script.main env).2 = 0 := by
  refine ⟨?_, ?_, ?_, rfl⟩
  · intro e he
    simp [Script.main, he]
  · simp [Script.main, cleanup_files]
  · simp [Script.main, cleanup_files]

/-- C6 witness: with the `rec` binary missing, the raised
`FileNotFoundError` is dispatched to a terminal report. -/
theorem orchestrator_catches_all_witness :
    (Script.main envC6w).2 = dispatch (PyError.fileNotFound recMissingMsg) :=
  (orchestrator_catches_all envC6w).1 (PyError.fileNotFound recMissingMsg) rfl

/-- C7.  Transcript persistence placement: when any failure is raised
inside the transcription stage (`record_and_transcribe`), no transcript
file — not even a partial one — exists after the run; when the stage
returns text `t`, the transcript file holding exactly the full text `t`
is already present at the end of the `try` block (it is written
immediately upon the stage returning, before any summarization action)
and survives to the end of the run. -/
theorem transcript_placement (env : Env) :
    (∀ e, (record_and_transcribe env FS.init).2 = Except.error e →
      (Script.main env).1.transcript = none)
    ∧ (∀ t, (record_and_transcribe env FS.init).2 = Except.ok t →
      (mainTry env FS.init).1.transcript = some t ∧
      (Script.main env).1.transcript = some t) := by
  have hT : (Script.main env).1.transcript = (mainTry env FS.init).1.transcript := by
    simp [Script.main, cleanup_files]
  rcases hrt : record_and_transcribe env FS.init with ⟨fs1, r1⟩
  obtain ⟨h1, h2⟩ := rt_init_files env fs1 r1 hrt
  cases r1 with
  | error e =>
    have hmt : mainTry env FS.init = (fs1, Except.error e) := by
      unfold mainTry
      rw [hrt]
    constructor
    · intro e0 he0
      rw [hT, hmt]
      exact h1
    · intro t ht
      simp at ht
  | ok t =>
    constructor
    · intro e0 he0
      simp at he0
    · intro t0 ht
      have ht0 : t = t0 := by simpa using ht
      subst ht0
      have hm := mainTry_transcript_of_ok env fs1 t hrt
      exact ⟨hm, hT.trans hm⟩

/-- C7 witness: in a fully successful environment the transcript file
holds the full transcription at the end of the `try` block and after
the run. -/
theorem transcript_placement_witness :
    (mainTry envC7w FS.init).1.transcript = some "hello" ∧
    (Script.main envC7w).1.transcript = some "hello" :=
  (transcript_placement envC7w).2 "hello" rfl

/-- C8.  Publication degrades without raising: `create_doc` performs the
two remote calls in sequence — create with the title, then insert the
body at index 1 — making exactly one call when create fails and two
otherwise; an `HttpError` from either call yields the `None` reference
instead of an exception; and a `try`-block completion (which a `None`
reference still is) means `main` ends in the success outcome, so the
run reporting completes. -/
theorem publication_degrades (env : Env) :
    (∀ m, env.docsCreate = Except.error (DocsErr.http m) →
      (create_doc env).url = Except.ok none ∧ (create_doc env).remoteCalls = 1)
    ∧ (∀ i m, env.docsCreate = Except.ok i → env.docsUpdate = Except.error (DocsErr.http m) →
      (create_doc env).url = Except.ok none ∧ (create_doc env).remoteCalls = 2)
    ∧ (∀ i, env.docsCreate = Except.ok i → env.docsUpdate = Except.ok () →
      (create_doc env).url =
        Except.ok (some ("https://docs.google.com/document/d/" ++ i ++ "/edit"))
      ∧ (create_doc env).remoteCalls = 2)
    ∧ (∀ o, (mainTry env FS.init).2 = Except.ok o → (Script.main env).2 = Outcome.success o) := by
  refine ⟨?_, ?_, ?_, ?_⟩
  · intro m h
    constructor <;> simp [create_doc, h]
  · intro i m h1 h2
    constructor <;> simp [create_doc, h1, h2]
  · intro i h1 h2
    constructor <;> simp [create_doc, h1, h2]
  · intro o h
    simp [Script.main, h]

/-- C8 witness: a failing `documents().create` call yields the `None`
reference after exactly one remote call. -/
theorem publication_degrades_witness :
    (create_doc envC8w).url = Except.ok none ∧ (create_doc envC8w).remoteCalls = 1 :=
  (publication_degrades envC8w).1 "HttpError 500" rfl

/-- C9 counterexample.  The claim says the empty-key-file case is also
intercepted to print setup guidance and exit quietly without a stack
trace; but in the environment where the key file exists and is empty,
`get_openai_api_key` raises `ValueError`, which falls through to the
catch-all handler of `main`: the run ends in the generic report that
prints the full traceback, not in the quiet return. -/
theorem empty_key_file_counterexample :
    (Script.main envC9c).2 = Outcome.genericWithTrace "OpenAI API key file is empty."
    ∧ (Script.main envC9c).2 ≠ Outcome.quietKeyReturn := by
  refine ⟨rfl, ?_⟩
  intro hc
  rw [show (Script.main envC9c).2 =
      Outcome.genericWithTrace "OpenAI API key file is empty." from rfl] at hc
  exact Outcome.noConfusion hc

/-- C9 (amended).  When transcription succeeded and the key stage is
reached: an absent key file raises the distinguishable
`FileNotFoundError` that `main` intercepts to return quietly (setup
instructions printed, no traceback); an empty (after stripping) key
file instead raises `ValueError`, handled by the catch-all
handler, which prints the error with a full stack trace. -/
theorem llm_secret_error_handling (env : Env)
    (h : ∃ fs1 t, record_and_transcribe env FS.init = (fs1, Except.ok t)) :
    (env.keyFile = none → (Script.main env).2 = Outcome.quietKeyReturn)
    ∧ (∀ s, env.keyFile = some s → pyStrip s = "" →
        (Script.main env).2 = Outcome.genericWithTrace "OpenAI API key file is empty.") := by
  obtain ⟨fs1, t, hrt⟩ := h
  constructor
  · intro hk
    have hke : get_openai_api_key env.keyFile =
        Except.error (PyError.fileNotFound openaiKeyMissingMsg) := by
      rw [hk]
      rfl
    have hmt : mainTry env FS.init =
        ({ fs1 with transcript := some t },
          Except.error (PyError.fileNotFound openaiKeyMissingMsg)) := by
      unfold mainTry
      rw [hrt, hke]
    simp [Script.main, hmt]
    rfl
  · intro s hk hempty
    have hke : get_openai_api_key env.keyFile =
        Except.error (PyError.valueError "OpenAI API key file is empty.") := by
      rw [hk]
      unfold get_openai_api_key
      simp [hempty]
    have hmt : mainTry env FS.init =
        ({ fs1 with transcript := some t },
          Except.error (PyError.valueError "OpenAI API key file is empty.")) := by
      unfold mainTry
      rw [hrt, hke]
    simp [Script.main, hmt]
    rfl

/-- C9 witness: in the absent-key-file environment the run ends in the
quiet return. -/
theorem llm_secret_error_handling_witness :
    (Script.main envC9w).2 = Outcome.quietKeyReturn :=
  (llm_secret_error_handling envC9w ⟨⟨true, some "hello", none, none⟩, "hello", rfl⟩).1 rfl

/-- C10.  `get_openai_api_key` returns the key file contents with leading
and trailing whitespace stripped: a successful call returns exactly the
stripped contents, which are non-empty and have no whitespace at either
end; and a file containing only whitespace is treated as empty and
rejected with the `ValueError`. -/
theorem get_openai_api_key_strips (s key : String) :
    (get_openai_api_key (some s) = Except.ok key →
      key = pyStrip s ∧ key ≠ "" ∧
      (∀ c : Char, key.data.head? = some c → isPySpace c = false) ∧
      (∀ c : Char, key.data.getLast? = some c → isPySpace c = false))
    ∧ ((∀ c ∈ s.data, isPySpace c = true) →
      get_openai_api_key (some s) =
        Except.error (PyError.valueError "OpenAI API key file is empty.")) := by
  constructor
  · intro h
    have h2 : (if pyStrip s = ""
        then (Except.error (PyError.valueError "OpenAI API key file is empty.") :
          Except PyError String)
        else Except.ok (pyStrip s)) = Except.ok key := h
    by_cases he : pyStrip s = ""
    · rw [if_pos he] at h2
      exact absurd h2 (by simp)
    · rw [if_neg he] at h2
      have hkey : pyStrip s = key := by simpa using h2
      subst hkey
      refine ⟨rfl, he, ?_, ?_⟩
      · intro c hc
        exact stripList_head_not_space s.data c hc
      · intro c hc
        exact stripList_getLast_not_space s.data c hc
  · intro hall
    have he : pyStrip s = "" := by
      unfold pyStrip
      rw [stripList_all_space s.data hall]
    unfold get_openai_api_key
    simp [he]

/-- C10 witness: the file contents "  k1 \n" yield the key "k1", non-empty
and whitespace-free at both ends. -/
theorem get_openai_api_key_strips_witness :
    "k1" = pyStrip "  k1 \n" ∧ "k1" ≠ "" ∧
    (∀ c : Char, "k1".data.head? = some c → isPySpace c = false) ∧
    (∀ c : Char, "k1".data.getLast? = some c → isPySpace c = false) :=
  (get_openai_api_key_strips "  k1 \n" "k1").1 (by rfl)
